import Mathlib

/-!
# Verification of the user-analytics data model

Shallow embedding of `demo/python-service/models/user_analytics.py`: the
`AnalyticsMetrics`, `UserAnalytics` and `AggregateAnalytics` dataclasses and
their methods.  Python `int` is modelled as `Int`, Python `float` as `ℚ`
(the program only ever combines its inputs with rational literals),
`datetime` as an integer timestamp (`datetime.isoformat` and
`datetime.fromisoformat` form a bijection between datetimes and their ISO
strings, modelled here as the identity on the timestamp), and a raised
`ValueError` as the `Except` error case carrying the message string.
-/

/-- A raised Python `ValueError`, identified by its message. -/
inductive PyErr where
  | valueError (msg : String)
deriving DecidableEq, Repr

/-- The `AnalyticsMetrics` dataclass: six numeric engagement fields
(`sessions`, `pageviews`, `avg_session_duration`, `conversions`,
`bounce_rate`, `retention_rate`). -/
structure AnalyticsMetrics where
  sessions : Int
  pageviews : Int
  avg_session_duration : ℚ
  conversions : Int
  bounce_rate : ℚ
  retention_rate : ℚ
deriving DecidableEq, Repr

/-- `AnalyticsMetrics.validate`: the range checks, in source order.  Note the
source checks `sessions`, `pageviews`, `avg_session_duration`, `bounce_rate`
and `retention_rate` but has no check on `conversions`. -/
def AnalyticsMetrics.validate (m : AnalyticsMetrics) : Except PyErr Unit :=
  if m.sessions < 0 then .error (.valueError "Sessions count cannot be negative")
  else if m.pageviews < 0 then .error (.valueError "Pageviews count cannot be negative")
  else if m.avg_session_duration < 0 then
    .error (.valueError "Average session duration cannot be negative")
  else if ¬ (0 ≤ m.bounce_rate ∧ m.bounce_rate ≤ 100) then
    .error (.valueError "Bounce rate must be between 0 and 100")
  else if ¬ (0 ≤ m.retention_rate ∧ m.retention_rate ≤ 100) then
    .error (.valueError "Retention rate must be between 0 and 100")
  else .ok ()

/-- Constructing an `AnalyticsMetrics`: the dataclass `__post_init__` calls
`validate`, so construction fails exactly when `validate` raises. -/
def mkAnalyticsMetrics (sessions pageviews : Int) (avg_session_duration : ℚ)
    (conversions : Int) (bounce_rate retention_rate : ℚ) :
    Except PyErr AnalyticsMetrics :=
  let m : AnalyticsMetrics :=
    ⟨sessions, pageviews, avg_session_duration, conversions, bounce_rate, retention_rate⟩
  match m.validate with
  | .ok _ => .ok m
  | .error e => .error e

/-- `AnalyticsMetrics.calculate_engagement_score`: weighted average of four
normalized sub-scores; `0.0` when `sessions == 0`. -/
def AnalyticsMetrics.calculate_engagement_score (m : AnalyticsMetrics) : ℚ :=
  if m.sessions = 0 then 0
  else
    let session_score := min ((m.sessions : ℚ) / 50) 1
    let pageview_score := min (((m.pageviews : ℚ) / (m.sessions : ℚ)) / 10) 1
    let duration_score := min (m.avg_session_duration / 600) 1
    let conversion_score := min ((m.conversions : ℚ) / 5) 1
    0.3 * session_score + 0.25 * pageview_score + 0.25 * duration_score +
      0.2 * conversion_score

/-- A nonnegative value capped at `1` lies in `[0, 1]`. -/
theorem min_one_mem_unit {x : ℚ} (hx : 0 ≤ x) : 0 ≤ min x 1 ∧ min x 1 ≤ 1 :=
  ⟨le_min hx zero_le_one, min_le_right _ _⟩

/-- C1: for every `AnalyticsMetrics` whose fields satisfy the stated range
constraints (`sessions`, `pageviews`, `avg_session_duration`, `conversions`
nonnegative; `bounce_rate` and `retention_rate` in `[0, 100]`),
`calculate_engagement_score` returns a value in `[0, 1]`. -/
theorem engagement_score_in_unit_interval (m : AnalyticsMetrics)
    (hs : 0 ≤ m.sessions) (hp : 0 ≤ m.pageviews) (hd : 0 ≤ m.avg_session_duration)
    (hc : 0 ≤ m.conversions)
    (hb : 0 ≤ m.bounce_rate ∧ m.bounce_rate ≤ 100)
    (hr : 0 ≤ m.retention_rate ∧ m.retention_rate ≤ 100) :
    0 ≤ m.calculate_engagement_score ∧ m.calculate_engagement_score ≤ 1 := by
  unfold AnalyticsMetrics.calculate_engagement_score
  split
  · norm_num
  · rename_i hne
    have hs' : (0 : ℚ) ≤ (m.sessions : ℚ) := by exact_mod_cast hs
    have hp' : (0 : ℚ) ≤ (m.pageviews : ℚ) := by exact_mod_cast hp
    have hc' : (0 : ℚ) ≤ (m.conversions : ℚ) := by exact_mod_cast hc
    have h1 := @min_one_mem_unit ((m.sessions : ℚ) / 50)
      (div_nonneg hs' (by norm_num))
    have h2 := @min_one_mem_unit (((m.pageviews : ℚ) / (m.sessions : ℚ)) / 10)
      (div_nonneg (div_nonneg hp' hs') (by norm_num))
    have h3 := @min_one_mem_unit (m.avg_session_duration / 600)
      (div_nonneg hd (by norm_num))
    have h4 := @min_one_mem_unit ((m.conversions : ℚ) / 5)
      (div_nonneg hc' (by norm_num))
    constructor
    · linarith [h1.1, h2.1, h3.1, h4.1]
    · linarith [h1.2, h2.2, h3.2, h4.2]

/-- C1 witness: the spec's own worked example
`Metrics(sessions=20, pageviews=100, avg_session_duration=300)`. -/
theorem engagement_score_in_unit_interval_witness :
    0 ≤ (AnalyticsMetrics.mk 20 100 300 0 0 0).calculate_engagement_score ∧
      (AnalyticsMetrics.mk 20 100 300 0 0 0).calculate_engagement_score ≤ 1 :=
  engagement_score_in_unit_interval (AnalyticsMetrics.mk 20 100 300 0 0 0)
    (by norm_num) (by norm_num) (by norm_num) (by norm_num)
    (by norm_num) (by norm_num)

/-- The `UserAnalytics` dataclass.  `datetime` fields are integer
timestamps (seconds); `metadata` is an association list of string keys to
string values (the embedding fixes `Any` to `String`, which the methods
never inspect). -/
structure UserAnalytics where
  user_id : String
  period_start : Int
  period_end : Int
  metrics : AnalyticsMetrics
  metadata : List (String × String)
deriving DecidableEq, Repr

/-- Constructing a `UserAnalytics`: `__post_init__` checks the period
ordering and then non-emptiness of `user_id`, in source order. -/
def mkUserAnalytics (user_id : String) (period_start period_end : Int)
    (metrics : AnalyticsMetrics) (metadata : List (String × String)) :
    Except PyErr UserAnalytics :=
  if period_end ≤ period_start then
    .error (.valueError "Period start must be before period end")
  else if user_id = "" then
    .error (.valueError "User ID cannot be empty")
  else
    .ok ⟨user_id, period_start, period_end, metrics, metadata⟩

/-- `UserAnalytics.get_period_days`: whole days in the period
(`timedelta.days` of a nonnegative difference, timestamps in seconds). -/
def UserAnalytics.get_period_days (x : UserAnalytics) : ℕ :=
  (x.period_end - x.period_start).toNat / 86400

/-- The mapping returned by `UserAnalytics.get_daily_averages`. -/
structure DailyAverages where
  sessions_per_day : ℚ
  pageviews_per_day : ℚ
  conversions_per_day : ℚ
deriving DecidableEq, Repr

/-- `UserAnalytics.get_daily_averages`. -/
def UserAnalytics.get_daily_averages (x : UserAnalytics) : DailyAverages :=
  let days : ℚ := max (x.get_period_days : ℚ) 1
  ⟨(x.metrics.sessions : ℚ) / days, (x.metrics.pageviews : ℚ) / days,
    (x.metrics.conversions : ℚ) / days⟩

/-- The local helper `calculate_change` inside `compare_to_baseline`. -/
def calculate_change (current baseline_val : ℚ) : ℚ :=
  if baseline_val = 0 then (if 0 < current then 100 else 0)
  else ((current - baseline_val) / baseline_val) * 100

/-- The mapping returned by `UserAnalytics.compare_to_baseline`: one
percentage change per reported metric. -/
structure ComparisonResult where
  sessions : ℚ
  pageviews : ℚ
  avg_session_duration : ℚ
  conversions : ℚ
  engagement_score : ℚ
deriving DecidableEq, Repr

/-- `UserAnalytics.compare_to_baseline`: raises when the user ids differ,
otherwise returns the percentage change of each metric. -/
def UserAnalytics.compare_to_baseline (self baseline : UserAnalytics) :
    Except PyErr ComparisonResult :=
  if baseline.user_id ≠ self.user_id then
    .error (.valueError "Cannot compare analytics for different users")
  else
    .ok ⟨calculate_change (self.metrics.sessions : ℚ) (baseline.metrics.sessions : ℚ),
      calculate_change (self.metrics.pageviews : ℚ) (baseline.metrics.pageviews : ℚ),
      calculate_change self.metrics.avg_session_duration baseline.metrics.avg_session_duration,
      calculate_change (self.metrics.conversions : ℚ) (baseline.metrics.conversions : ℚ),
      calculate_change self.metrics.calculate_engagement_score
        baseline.metrics.calculate_engagement_score⟩

/-- The messages of every construction-time (`__post_init__`/`validate`)
`ValueError` in the module. -/
def validationMessages : List String :=
  ["Sessions count cannot be negative", "Pageviews count cannot be negative",
   "Average session duration cannot be negative",
   "Bounce rate must be between 0 and 100",
   "Retention rate must be between 0 and 100",
   "Period start must be before period end", "User ID cannot be empty"]

/-- C4: comparing two `UserAnalytics` whose user ids differ fails with the
comparison-mismatch `ValueError`, whose message is distinct from every
construction-time validation message, whatever the other fields hold. -/
theorem compare_different_users_fails (x b : UserAnalytics)
    (h : b.user_id ≠ x.user_id) :
    x.compare_to_baseline b =
        .error (.valueError "Cannot compare analytics for different users") ∧
      "Cannot compare analytics for different users" ∉ validationMessages := by
  refine ⟨?_, by decide⟩
  simp [UserAnalytics.compare_to_baseline, h]

/-- C4 witness: two instances identical except for the user id. -/
theorem compare_different_users_fails_witness :
    (UserAnalytics.mk "alice" 0 86400 ⟨1, 2, 3, 4, 5, 6⟩ []).compare_to_baseline
        (UserAnalytics.mk "bob" 0 86400 ⟨1, 2, 3, 4, 5, 6⟩ []) =
        .error (.valueError "Cannot compare analytics for different users") ∧
      "Cannot compare analytics for different users" ∉ validationMessages :=
  compare_different_users_fails
    (UserAnalytics.mk "alice" 0 86400 ⟨1, 2, 3, 4, 5, 6⟩ [])
    (UserAnalytics.mk "bob" 0 86400 ⟨1, 2, 3, 4, 5, 6⟩ []) (by decide)

/-- C5: with equal user ids, `compare_to_baseline` returns, for each metric,
`100` when the baseline value is `0` and the current value is positive, `0`
when the baseline value is `0` and the current value is not positive, and
`(current − baseline)/baseline × 100` otherwise. -/
theorem compare_same_user_changes (x b : UserAnalytics)
    (h : b.user_id = x.user_id) :
    x.compare_to_baseline b = .ok
      ⟨if (b.metrics.sessions : ℚ) = 0 then
          (if 0 < (x.metrics.sessions : ℚ) then 100 else 0)
        else (((x.metrics.sessions : ℚ) - (b.metrics.sessions : ℚ)) /
          (b.metrics.sessions : ℚ)) * 100,
       if (b.metrics.pageviews : ℚ) = 0 then
          (if 0 < (x.metrics.pageviews : ℚ) then 100 else 0)
        else (((x.metrics.pageviews : ℚ) - (b.metrics.pageviews : ℚ)) /
          (b.metrics.pageviews : ℚ)) * 100,
       if b.metrics.avg_session_duration = 0 then
          (if 0 < x.metrics.avg_session_duration then 100 else 0)
        else ((x.metrics.avg_session_duration - b.metrics.avg_session_duration) /
          b.metrics.avg_session_duration) * 100,
       if (b.metrics.conversions : ℚ) = 0 then
          (if 0 < (x.metrics.conversions : ℚ) then 100 else 0)
        else (((x.metrics.conversions : ℚ) - (b.metrics.conversions : ℚ)) /
          (b.metrics.conversions : ℚ)) * 100,
       if b.metrics.calculate_engagement_score = 0 then
          (if 0 < x.metrics.calculate_engagement_score then 100 else 0)
        else ((x.metrics.calculate_engagement_score -
            b.metrics.calculate_engagement_score) /
          b.metrics.calculate_engagement_score) * 100⟩ := by
  simp [UserAnalytics.compare_to_baseline, h, calculate_change]

/-- C5 witness: a concrete same-user comparison. -/
theorem compare_same_user_changes_witness :
    (UserAnalytics.mk "alice" 0 86400 ⟨10, 0, 2, 0, 0, 0⟩ []).compare_to_baseline
        (UserAnalytics.mk "alice" 0 172800 ⟨5, 0, 4, 0, 0, 0⟩ []) = .ok
      ⟨if ((5 : Int) : ℚ) = 0 then (if 0 < ((10 : Int) : ℚ) then 100 else 0)
        else ((((10 : Int) : ℚ) - ((5 : Int) : ℚ)) / ((5 : Int) : ℚ)) * 100,
       if ((0 : Int) : ℚ) = 0 then (if 0 < ((0 : Int) : ℚ) then 100 else 0)
        else ((((0 : Int) : ℚ) - ((0 : Int) : ℚ)) / ((0 : Int) : ℚ)) * 100,
       if (4 : ℚ) = 0 then (if 0 < (2 : ℚ) then 100 else 0)
        else (((2 : ℚ) - (4 : ℚ)) / (4 : ℚ)) * 100,
       if ((0 : Int) : ℚ) = 0 then (if 0 < ((0 : Int) : ℚ) then 100 else 0)
        else ((((0 : Int) : ℚ) - ((0 : Int) : ℚ)) / ((0 : Int) : ℚ)) * 100,
       if (AnalyticsMetrics.mk 5 0 4 0 0 0).calculate_engagement_score = 0 then
          (if 0 < (AnalyticsMetrics.mk 10 0 2 0 0 0).calculate_engagement_score
            then 100 else 0)
        else (((AnalyticsMetrics.mk 10 0 2 0 0 0).calculate_engagement_score -
            (AnalyticsMetrics.mk 5 0 4 0 0 0).calculate_engagement_score) /
          (AnalyticsMetrics.mk 5 0 4 0 0 0).calculate_engagement_score) * 100⟩ :=
  compare_same_user_changes
    (UserAnalytics.mk "alice" 0 86400 ⟨10, 0, 2, 0, 0, 0⟩ [])
    (UserAnalytics.mk "alice" 0 172800 ⟨5, 0, 4, 0, 0, 0⟩ []) (by decide)

/-- C6: the four construction failures named by the spec: a negative
session count, a bounce rate above 100, a negative retention rate, and an
empty (start = end) period. -/
theorem construction_failures :
    mkAnalyticsMetrics (-1) 0 0 0 0 0 =
        .error (.valueError "Sessions count cannot be negative") ∧
      mkAnalyticsMetrics 0 0 0 0 101 0 =
        .error (.valueError "Bounce rate must be between 0 and 100") ∧
      mkAnalyticsMetrics 0 0 0 0 0 (-0.1) =
        .error (.valueError "Retention rate must be between 0 and 100") ∧
      mkUserAnalytics "user1" 0 0 ⟨0, 0, 0, 0, 0, 0⟩ [] =
        .error (.valueError "Period start must be before period end") := by
  refine ⟨?_, ?_, ?_, ?_⟩ <;>
    norm_num [mkAnalyticsMetrics, AnalyticsMetrics.validate, mkUserAnalytics]

/-- The mapping returned by `AnalyticsMetrics.to_dict`: the six fields plus
the derived `engagement_score`. -/
structure MetricsDict where
  sessions : Int
  pageviews : Int
  avg_session_duration : ℚ
  conversions : Int
  bounce_rate : ℚ
  retention_rate : ℚ
  engagement_score : ℚ
deriving DecidableEq, Repr

/-- `AnalyticsMetrics.to_dict`. -/
def AnalyticsMetrics.to_dict (m : AnalyticsMetrics) : MetricsDict :=
  ⟨m.sessions, m.pageviews, m.avg_session_duration, m.conversions,
    m.bounce_rate, m.retention_rate, m.calculate_engagement_score⟩

/-- The mapping returned by `UserAnalytics.to_dict`: user id, the nested
period sub-mapping (ISO start and end, modelled by their timestamps, plus
`days`), the nested metrics sub-mapping, daily averages, and metadata. -/
structure UserAnalyticsDict where
  user_id : String
  period_start : Int
  period_end : Int
  period_days : ℕ
  metrics : MetricsDict
  daily_averages : DailyAverages
  metadata : List (String × String)
deriving DecidableEq, Repr

/-- `UserAnalytics.to_dict`. -/
def UserAnalytics.to_dict (x : UserAnalytics) : UserAnalyticsDict :=
  ⟨x.user_id, x.period_start, x.period_end, x.get_period_days,
    x.metrics.to_dict, x.get_daily_averages, x.metadata⟩

/-- `UserAnalytics.from_dict`, applied to a mapping of the exact shape
`to_dict` produces: rebuilds the metrics from the metrics sub-mapping
(re-running `validate`), parses the period timestamps, and re-runs the
`UserAnalytics` constructor validation.  The `days`, `daily_averages` and
`engagement_score` entries are not read, as in the source. -/
def UserAnalytics.from_dict (d : UserAnalyticsDict) : Except PyErr UserAnalytics :=
  match mkAnalyticsMetrics d.metrics.sessions d.metrics.pageviews
      d.metrics.avg_session_duration d.metrics.conversions
      d.metrics.bounce_rate d.metrics.retention_rate with
  | .error e => .error e
  | .ok metrics =>
      mkUserAnalytics d.user_id d.period_start d.period_end metrics d.metadata

/-- The conditions `AnalyticsMetrics.validate` enforces (no constraint on
`conversions` appears in the source). -/
def AnalyticsMetrics.Valid (m : AnalyticsMetrics) : Prop :=
  0 ≤ m.sessions ∧ 0 ≤ m.pageviews ∧ 0 ≤ m.avg_session_duration ∧
    (0 ≤ m.bounce_rate ∧ m.bounce_rate ≤ 100) ∧
    (0 ≤ m.retention_rate ∧ m.retention_rate ≤ 100)

/-- The conditions a constructed `UserAnalytics` satisfies: its metrics
passed `validate`, the period is ordered, and the user id is non-empty. -/
def UserAnalytics.Valid (x : UserAnalytics) : Prop :=
  x.metrics.Valid ∧ x.period_start < x.period_end ∧ x.user_id ≠ ""

/-- C2: for every valid `UserAnalytics`, `from_dict (to_dict x)` succeeds
and returns an instance equal to `x` in every field. -/
theorem from_dict_to_dict_roundtrip (x : UserAnalytics) (hx : x.Valid) :
    UserAnalytics.from_dict x.to_dict = .ok x := by
  obtain ⟨⟨h1, h2, h3, h4, h5⟩, hlt, hid⟩ := hx
  cases x with
  | mk uid ps pe ms md =>
    cases ms with
    | mk a b c d e f =>
      simp only [UserAnalytics.from_dict, UserAnalytics.to_dict,
        AnalyticsMetrics.to_dict, mkAnalyticsMetrics, AnalyticsMetrics.validate,
        mkUserAnalytics] at *
      rw [if_neg (not_lt.mpr h1), if_neg (not_lt.mpr h2), if_neg (not_lt.mpr h3),
        if_neg (not_not_intro h4), if_neg (not_not_intro h5)]
      dsimp only
      rw [if_neg (not_le.mpr hlt), if_neg hid]

/-- C2 witness: a concrete valid instance round-trips. -/
theorem from_dict_to_dict_roundtrip_witness :
    UserAnalytics.from_dict
        (UserAnalytics.mk "alice" 0 90000 ⟨1, 2, 3, 4, 5, 6⟩
          [("source", "web")]).to_dict =
      .ok (UserAnalytics.mk "alice" 0 90000 ⟨1, 2, 3, 4, 5, 6⟩
        [("source", "web")]) :=
  from_dict_to_dict_roundtrip
    (UserAnalytics.mk "alice" 0 90000 ⟨1, 2, 3, 4, 5, 6⟩ [("source", "web")])
    ⟨⟨by norm_num, by norm_num, by norm_num, ⟨by norm_num, by norm_num⟩,
      ⟨by norm_num, by norm_num⟩⟩, by norm_num, by decide⟩

/-- The names of the six data fields of `AnalyticsMetrics`, i.e. the metric
names for which `hasattr(metrics, name)` finds a numeric attribute. -/
def metricAttrNames : List String :=
  ["sessions", "pageviews", "avg_session_duration", "conversions",
   "bounce_rate", "retention_rate"]

/-- Dynamic attribute lookup `hasattr`/`getattr` on an `AnalyticsMetrics`,
restricted to its six numeric data fields (integer fields are read as their
numeric value): `some` when the attribute exists, `none` otherwise. -/
def AnalyticsMetrics.getMetricAttr (m : AnalyticsMetrics) (attr : String) :
    Option ℚ :=
  if attr = "sessions" then some (m.sessions : ℚ)
  else if attr = "pageviews" then some (m.pageviews : ℚ)
  else if attr = "avg_session_duration" then some m.avg_session_duration
  else if attr = "conversions" then some (m.conversions : ℚ)
  else if attr = "bounce_rate" then some m.bounce_rate
  else if attr = "retention_rate" then some m.retention_rate
  else none

/-- The `AggregateAnalytics` dataclass. -/
structure AggregateAnalytics where
  total_users : Int
  period_start : Int
  period_end : Int
  aggregate_metrics : AnalyticsMetrics
  user_breakdown : List UserAnalytics
  trends : List (String × List ℚ)
deriving DecidableEq, Repr

/-- The mapping returned by `calculate_percentiles`. -/
structure Percentiles where
  p25 : ℚ
  p50 : ℚ
  p75 : ℚ
  p95 : ℚ
deriving DecidableEq, Repr

/-- The index `int(n * p)` used by `calculate_percentiles`; the product is
nonnegative, so Python's truncating `int` is the floor. -/
def percentileIdx (n : ℕ) (p : ℚ) : ℤ := ⌊(n : ℚ) * p⌋

/-- `AggregateAnalytics.calculate_percentiles`: collect the named metric
from every breakdown entry that has the attribute, sort ascending, and read
the four nearest-rank indices.  `getD` with default `0` stands for the list
indexing; the C3 theorem shows every index used is in bounds. -/
def AggregateAnalytics.calculate_percentiles (agg : AggregateAnalytics)
    (metric : String) : Percentiles :=
  if agg.user_breakdown = [] then ⟨0, 0, 0, 0⟩
  else
    let values := agg.user_breakdown.filterMap
      (fun u => u.metrics.getMetricAttr metric)
    if values = [] then ⟨0, 0, 0, 0⟩
    else
      let sorted := values.insertionSort (· ≤ ·)
      let n := sorted.length
      ⟨sorted.getD (percentileIdx n 0.25).toNat 0,
       sorted.getD (percentileIdx n 0.50).toNat 0,
       sorted.getD (percentileIdx n 0.75).toNat 0,
       sorted.getD (percentileIdx n 0.95).toNat 0⟩

/-- For `0 ≤ p < 1` and `1 ≤ n`, the nearest-rank index is in `[0, n-1]`. -/
theorem percentileIdx_bounds {n : ℕ} (hn : 1 ≤ n) {p : ℚ} (hp0 : 0 ≤ p)
    (hp1 : p < 1) : 0 ≤ percentileIdx n p ∧ percentileIdx n p ≤ (n : ℤ) - 1 := by
  have hn' : (1 : ℚ) ≤ (n : ℚ) := by exact_mod_cast hn
  constructor
  · exact Int.floor_nonneg.mpr (mul_nonneg (by positivity) hp0)
  · have hlt : (n : ℚ) * p < ((n : ℤ) : ℚ) := by
      push_cast
      nlinarith
    have := Int.floor_lt.mpr hlt
    unfold percentileIdx
    omega

/-- C3: for a non-empty value list of length `n`, each of the four indices
`⌊n*p⌋`, `p ∈ {0.25, 0.50, 0.75, 0.95}`, lies in `[0, n-1]`, so the list
indexing in `calculate_percentiles` never goes out of bounds; and
`⌊n * 0.95⌋ = n` is impossible (it could only hold for `n = 0`). -/
theorem percentile_indices_in_bounds (n : ℕ) (hn : 1 ≤ n) (p : ℚ)
    (hp : p ∈ [(0.25 : ℚ), 0.50, 0.75, 0.95]) :
    (0 ≤ percentileIdx n p ∧ percentileIdx n p ≤ (n : ℤ) - 1) ∧
      (percentileIdx n 0.95 = (n : ℤ) → n = 0) := by
  have h95 := percentileIdx_bounds hn (p := (0.95 : ℚ)) (by norm_num) (by norm_num)
  refine ⟨?_, fun h => absurd h (by omega)⟩
  simp only [List.mem_cons, List.not_mem_nil, or_false] at hp
  rcases hp with rfl | rfl | rfl | rfl
  · exact percentileIdx_bounds hn (by norm_num) (by norm_num)
  · exact percentileIdx_bounds hn (by norm_num) (by norm_num)
  · exact percentileIdx_bounds hn (by norm_num) (by norm_num)
  · exact h95

/-- C3 witness: `n = 4`, `p = 0.95`. -/
theorem percentile_indices_in_bounds_witness :
    0 ≤ percentileIdx 4 0.95 ∧ percentileIdx 4 0.95 ≤ (4 : ℤ) - 1 :=
  (percentile_indices_in_bounds 4 (by norm_num) 0.95 (by norm_num)).1

/-- C8: when `user_breakdown` holds exactly one entry and the named metric
is one of the metric attributes (value `v`), all four percentiles are `v`. -/
theorem percentiles_single_user (agg : AggregateAnalytics) (u : UserAnalytics)
    (metric : String) (v : ℚ) (hb : agg.user_breakdown = [u])
    (hv : u.metrics.getMetricAttr metric = some v) :
    agg.calculate_percentiles metric = ⟨v, v, v, v⟩ := by
  have h25 : (percentileIdx 1 0.25).toNat = 0 := by
    norm_num [percentileIdx, Int.floor_eq_zero_iff]
  have h50 : (percentileIdx 1 0.50).toNat = 0 := by
    norm_num [percentileIdx, Int.floor_eq_zero_iff]
  have h75 : (percentileIdx 1 0.75).toNat = 0 := by
    norm_num [percentileIdx, Int.floor_eq_zero_iff]
  have h95 : (percentileIdx 1 0.95).toNat = 0 := by
    norm_num [percentileIdx, Int.floor_eq_zero_iff]
  simp [AggregateAnalytics.calculate_percentiles, hb, hv, List.filterMap_cons,
    List.insertionSort, h25, h50, h75, h95]

/-- C8 witness: a one-user aggregate and the `sessions` metric. -/
theorem percentiles_single_user_witness :
    (AggregateAnalytics.mk 1 0 86400 ⟨0, 0, 0, 0, 0, 0⟩
        [⟨"alice", 0, 86400, ⟨7, 2, 3, 4, 5, 6⟩, []⟩] []).calculate_percentiles
        "sessions" = ⟨7, 7, 7, 7⟩ :=
  percentiles_single_user
    (AggregateAnalytics.mk 1 0 86400 ⟨0, 0, 0, 0, 0, 0⟩
      [⟨"alice", 0, 86400, ⟨7, 2, 3, 4, 5, 6⟩, []⟩] [])
    ⟨"alice", 0, 86400, ⟨7, 2, 3, 4, 5, 6⟩, []⟩ "sessions" 7 rfl
    (by norm_num [AnalyticsMetrics.getMetricAttr])

/-- One entry of the list returned by `get_top_users`:
`{"user_id": ..., "value": ..., "metric": ...}`. -/
structure UserScore where
  user_id : String
  value : ℚ
  metric : String
deriving DecidableEq, Repr

/-- The `user_scores` list built by `get_top_users` before sorting. -/
def AggregateAnalytics.userScores (agg : AggregateAnalytics)
    (metric : String) : List UserScore :=
  agg.user_breakdown.filterMap (fun u =>
    (u.metrics.getMetricAttr metric).map (fun v => ⟨u.user_id, v, metric⟩))

/-- The ordering realized by Python's stable
`sort(key=lambda x: x["value"], reverse=True)`: value strictly descending,
ties kept in original position order.  On entries tagged with distinct
original indices this is a linear order, so the stably sorted list is the
unique list sorted by this relation. -/
def topRel (a b : ℕ × UserScore) : Prop :=
  b.2.value < a.2.value ∨ (a.2.value = b.2.value ∧ a.1 ≤ b.1)

instance : DecidableRel topRel := fun a b => by
  unfold topRel
  exact inferInstance

instance : IsTotal (ℕ × UserScore) topRel := by
  constructor
  intro a b
  unfold topRel
  rcases lt_trichotomy a.2.value b.2.value with h | h | h
  · exact Or.inr (Or.inl h)
  · rcases Nat.le_total a.1 b.1 with h' | h'
    · exact Or.inl (Or.inr ⟨h, h'⟩)
    · exact Or.inr (Or.inr ⟨h.symm, h'⟩)
  · exact Or.inl (Or.inl h)

instance : IsTrans (ℕ × UserScore) topRel := by
  constructor
  intro a b c hab hbc
  unfold topRel at *
  rcases hab with h1 | ⟨e1, i1⟩
  · rcases hbc with h2 | ⟨e2, i2⟩
    · exact Or.inl (h2.trans h1)
    · exact Or.inl (e2 ▸ h1)
  · rcases hbc with h2 | ⟨e2, i2⟩
    · exact Or.inl (e1 ▸ h2)
    · exact Or.inr ⟨e1.trans e2, i1.trans i2⟩

/-- `AggregateAnalytics.get_top_users`: build the score entries, stable-sort
by value descending (modelled by sorting the index-tagged list by `topRel`
and dropping the tags), and keep the first `limit`. -/
def AggregateAnalytics.get_top_users (agg : AggregateAnalytics)
    (metric : String) (limit : ℕ) : List UserScore :=
  ((((agg.userScores metric).enum).insertionSort topRel).map Prod.snd).take limit

/-- C10: a metric name that is not an attribute of `AnalyticsMetrics` makes
`calculate_percentiles` return all-zero percentiles and `get_top_users`
return the empty list, also on a non-empty breakdown; neither raises. -/
theorem unknown_metric_zero_results (agg : AggregateAnalytics)
    (metric : String) (limit : ℕ) (hm : metric ∉ metricAttrNames)
    (hb : agg.user_breakdown ≠ []) :
    agg.calculate_percentiles metric = ⟨0, 0, 0, 0⟩ ∧
      agg.get_top_users metric limit = [] := by
  simp only [metricAttrNames, List.mem_cons, List.not_mem_nil, or_false,
    not_or] at hm
  obtain ⟨n1, n2, n3, n4, n5, n6⟩ := hm
  have hnone : ∀ m : AnalyticsMetrics, m.getMetricAttr metric = none := by
    intro m
    simp [AnalyticsMetrics.getMetricAttr, n1, n2, n3, n4, n5, n6]
  constructor
  · simp [AggregateAnalytics.calculate_percentiles, hb, hnone]
  · have hfm : agg.user_breakdown.filterMap (fun u =>
        ((u.metrics.getMetricAttr metric).map
          (fun v => (⟨u.user_id, v, metric⟩ : UserScore)))) = [] := by
      rw [List.filterMap_eq_nil_iff]
      intro u hu
      simp [hnone]
    simp [AggregateAnalytics.get_top_users, AggregateAnalytics.userScores, hfm]

/-- C10 witness: the attribute name `bogus` on a one-user aggregate. -/
theorem unknown_metric_zero_results_witness :
    (AggregateAnalytics.mk 1 0 86400 ⟨0, 0, 0, 0, 0, 0⟩
        [⟨"alice", 0, 86400, ⟨7, 2, 3, 4, 5, 6⟩, []⟩] []).calculate_percentiles
        "bogus" = ⟨0, 0, 0, 0⟩ ∧
      (AggregateAnalytics.mk 1 0 86400 ⟨0, 0, 0, 0, 0, 0⟩
        [⟨"alice", 0, 86400, ⟨7, 2, 3, 4, 5, 6⟩, []⟩] []).get_top_users
        "bogus" 10 = [] :=
  unknown_metric_zero_results
    (AggregateAnalytics.mk 1 0 86400 ⟨0, 0, 0, 0, 0, 0⟩
      [⟨"alice", 0, 86400, ⟨7, 2, 3, 4, 5, 6⟩, []⟩] [])
    "bogus" 10 (by decide) (by decide)

/-- The index-tagged sort underlying `get_top_users` is sorted by `topRel`. -/
theorem topSort_sorted (l : List UserScore) :
    (l.enum.insertionSort topRel).Sorted topRel :=
  List.sorted_insertionSort topRel l.enum

/-- The index tags in the sort underlying `get_top_users` stay distinct. -/
theorem topSort_fst_nodup (l : List UserScore) :
    ((l.enum.insertionSort topRel).map Prod.fst).Nodup := by
  have hperm : List.Perm ((l.enum.insertionSort topRel).map Prod.fst)
      (l.enum.map Prod.fst) :=
    (List.perm_insertionSort topRel l.enum).map Prod.fst
  exact hperm.nodup_iff.mpr (List.nodup_enum_map_fst l)

/-- C7: `get_top_users` returns at most `limit` entries, in non-increasing
order of the requested metric's value; among equal values the original
`user_breakdown` order (the index tags of the sorted `user_scores` list) is
strictly increasing, i.e. the descending sort is stable; and the returned
entries are exactly the tagged sorted prefix with its tags dropped. -/
theorem get_top_users_spec (agg : AggregateAnalytics) (metric : String)
    (hm : metric ∈ metricAttrNames) (limit : ℕ) :
    (agg.get_top_users metric limit).length ≤ limit ∧
      (agg.get_top_users metric limit).Pairwise (fun a b => b.value ≤ a.value) ∧
      (((agg.userScores metric).enum.insertionSort topRel).take limit).Pairwise
        (fun a b => a.2.value = b.2.value → a.1 < b.1) ∧
      agg.get_top_users metric limit =
        ((((agg.userScores metric).enum.insertionSort topRel).take limit).map
          Prod.snd) := by
  refine ⟨?_, ?_, ?_, ?_⟩
  · simp [AggregateAnalytics.get_top_users]
  · have hsorted := topSort_sorted (agg.userScores metric)
    have hdesc : (((agg.userScores metric).enum.insertionSort topRel).map
        Prod.snd).Pairwise (fun a b => b.value ≤ a.value) := by
      refine List.pairwise_map.mpr (hsorted.imp ?_)
      intro a b hab
      rcases hab with h | ⟨h, _⟩
      · exact le_of_lt h
      · exact le_of_eq h.symm
    exact hdesc.sublist (List.take_sublist _ _)
  · have hsorted := topSort_sorted (agg.userScores metric)
    have hne : ((agg.userScores metric).enum.insertionSort topRel).Pairwise
        (fun a b => a.1 ≠ b.1) :=
      List.pairwise_map.mp (topSort_fst_nodup (agg.userScores metric))
    have hstable : ((agg.userScores metric).enum.insertionSort topRel).Pairwise
        (fun a b => a.2.value = b.2.value → a.1 < b.1) := by
      refine (hsorted.and hne).imp ?_
      intro a b ⟨hab, hab'⟩ hveq
      rcases hab with h | ⟨_, h⟩
      · exact absurd (hveq ▸ h) (lt_irrefl _)
      · exact lt_of_le_of_ne h hab'
    exact hstable.sublist (List.take_sublist _ _)
  · simp [AggregateAnalytics.get_top_users, List.map_take]

/-- C7 witness: a two-user aggregate with tied `sessions` values, ranked by
`sessions` with `limit = 1`. -/
theorem get_top_users_spec_witness :
    "sessions" ∈ metricAttrNames ∧
      ((AggregateAnalytics.mk 2 0 86400 ⟨0, 0, 0, 0, 0, 0⟩
        [⟨"alice", 0, 86400, ⟨7, 0, 0, 0, 0, 0⟩, []⟩,
         ⟨"bob", 0, 86400, ⟨7, 0, 0, 0, 0, 0⟩, []⟩] []).get_top_users
        "sessions" 1).length ≤ 1 :=
  ⟨by decide,
    (get_top_users_spec
      (AggregateAnalytics.mk 2 0 86400 ⟨0, 0, 0, 0, 0, 0⟩
        [⟨"alice", 0, 86400, ⟨7, 0, 0, 0, 0, 0⟩, []⟩,
         ⟨"bob", 0, 86400, ⟨7, 0, 0, 0, 0, 0⟩, []⟩] [])
      "sessions" (by decide) 1).1⟩

/-- Machine state while `calculate_percentiles` runs: the receiver (the only
heap object the method could mutate through `self`) and the local `values`
list.  `values.sort()` mutates only the local list, whose elements are
numbers copied out of the breakdown. -/
structure PercState where
  self : AggregateAnalytics
  values : List ℚ
deriving Repr

/-- One iteration of the `for user_analytics in self.user_breakdown` loop of
`calculate_percentiles`: append the attribute value when present. -/
def percStep (metric : String) (s : PercState) (u : UserAnalytics) : PercState :=
  match u.metrics.getMetricAttr metric with
  | some v => ⟨s.self, s.values ++ [v]⟩
  | none => s

/-- The loop of `calculate_percentiles` never writes to the receiver. -/
theorem foldl_percStep_self (metric : String) :
    ∀ (l : List UserAnalytics) (s : PercState),
      (l.foldl (percStep metric) s).self = s.self := by
  intro l
  induction l with
  | nil => intro s; rfl
  | cons u t ih =>
      intro s
      rw [List.foldl_cons, ih]
      unfold percStep
      split <;> rfl

/-- The loop of `calculate_percentiles` appends exactly the attribute values
of the breakdown entries that have the attribute. -/
theorem foldl_percStep_values (metric : String) :
    ∀ (l : List UserAnalytics) (s : PercState),
      (l.foldl (percStep metric) s).values =
        s.values ++ l.filterMap (fun u => u.metrics.getMetricAttr metric) := by
  intro l
  induction l with
  | nil => intro s; simp
  | cons u t ih =>
      intro s
      rw [List.foldl_cons, ih]
      unfold percStep
      cases h : u.metrics.getMetricAttr metric with
      | some v => simp [List.filterMap_cons, h]
      | none => simp [List.filterMap_cons, h]

/-- `calculate_percentiles` as a state transformer: the returned mapping
together with the receiver state after the method body (loop, local
`values.sort()`, indexed reads) has run. -/
def calculate_percentilesS (agg : AggregateAnalytics) (metric : String) :
    Percentiles × AggregateAnalytics :=
  if agg.user_breakdown = [] then (⟨0, 0, 0, 0⟩, agg)
  else
    let st := agg.user_breakdown.foldl (percStep metric) ⟨agg, []⟩
    if st.values = [] then (⟨0, 0, 0, 0⟩, st.self)
    else
      let st2 : PercState := ⟨st.self, st.values.insertionSort (· ≤ ·)⟩
      let n := st2.values.length
      (⟨st2.values.getD (percentileIdx n 0.25).toNat 0,
        st2.values.getD (percentileIdx n 0.50).toNat 0,
        st2.values.getD (percentileIdx n 0.75).toNat 0,
        st2.values.getD (percentileIdx n 0.95).toNat 0⟩, st2.self)

/-- Machine state while `get_top_users` runs: the receiver and the local
`user_scores` list. -/
structure TopState where
  self : AggregateAnalytics
  user_scores : List UserScore
deriving Repr

/-- One iteration of the `for user_analytics in self.user_breakdown` loop of
`get_top_users`. -/
def topStep (metric : String) (s : TopState) (u : UserAnalytics) : TopState :=
  match u.metrics.getMetricAttr metric with
  | some v => ⟨s.self, s.user_scores ++ [⟨u.user_id, v, metric⟩]⟩
  | none => s

/-- The loop of `get_top_users` never writes to the receiver. -/
theorem foldl_topStep_self (metric : String) :
    ∀ (l : List UserAnalytics) (s : TopState),
      (l.foldl (topStep metric) s).self = s.self := by
  intro l
  induction l with
  | nil => intro s; rfl
  | cons u t ih =>
      intro s
      rw [List.foldl_cons, ih]
      unfold topStep
      split <;> rfl

/-- The loop of `get_top_users` appends exactly the score entries of the
breakdown entries that have the attribute. -/
theorem foldl_topStep_scores (metric : String) :
    ∀ (l : List UserAnalytics) (s : TopState),
      (l.foldl (topStep metric) s).user_scores =
        s.user_scores ++ l.filterMap (fun u =>
          (u.metrics.getMetricAttr metric).map
            (fun v => (⟨u.user_id, v, metric⟩ : UserScore))) := by
  intro l
  induction l with
  | nil => intro s; simp
  | cons u t ih =>
      intro s
      rw [List.foldl_cons, ih]
      unfold topStep
      cases h : u.metrics.getMetricAttr metric with
      | some v => simp [List.filterMap_cons, h]
      | none => simp [List.filterMap_cons, h]

/-- `get_top_users` as a state transformer: loop, stable in-place sort of
the local `user_scores` list, then slicing. -/
def get_top_usersS (agg : AggregateAnalytics) (metric : String) (limit : ℕ) :
    List UserScore × AggregateAnalytics :=
  let st := agg.user_breakdown.foldl (topStep metric) ⟨agg, []⟩
  let st2 : TopState :=
    ⟨st.self, (st.user_scores.enum.insertionSort topRel).map Prod.snd⟩
  (st2.user_scores.take limit, st2.self)

/-- C9: `calculate_percentiles` and `get_top_users` are pure reads: run as
state transformers they return the receiver unchanged in every field
(breakdown order and trends included), and their results agree with the
functional definitions; the sorting happens on local lists only. -/
theorem operations_are_pure_reads (agg : AggregateAnalytics) (metric : String)
    (limit : ℕ) :
    calculate_percentilesS agg metric =
        (agg.calculate_percentiles metric, agg) ∧
      get_top_usersS agg metric limit = (agg.get_top_users metric limit, agg) := by
  constructor
  · unfold calculate_percentilesS AggregateAnalytics.calculate_percentiles
    simp only [foldl_percStep_self metric agg.user_breakdown ⟨agg, []⟩,
      foldl_percStep_values metric agg.user_breakdown ⟨agg, []⟩,
      List.nil_append]
    split_ifs <;> rfl
  · unfold get_top_usersS AggregateAnalytics.get_top_users
      AggregateAnalytics.userScores
    simp only [foldl_topStep_self metric agg.user_breakdown ⟨agg, []⟩,
      foldl_topStep_scores metric agg.user_breakdown ⟨agg, []⟩,
      List.nil_append]
